import Mathlib

/-!
Shallow embedding of the Brio network simulator core
(src/blocks/layer.py, src/blocks/connection.py, brio/blocks/aux.py,
brio/blocks/network.py).

Real-valued numpy data is modelled over `ℚ`; vectors are `List ℚ` and
dense matrices are `List (List ℚ)` in row-major order (row index =
presynaptic unit).  Python `None` results are modelled with `Option`.
-/

namespace Brio

/-- Embeds `LayerType` (layer.py / aux.py): an enumeration whose members
carry `(firing_rate_multiplier, weight_multiplier, constrain_weights)`:
`unconstrained = (1, 1, False)`, `excitatory = (1, 1, True)`,
`inhibitory = (2, -1, True)`. -/
inductive LayerType
  | unconstrained
  | excitatory
  | inhibitory
deriving DecidableEq

def LayerType.firing_rate_multiplier : LayerType → ℚ
  | .unconstrained => 1
  | .excitatory => 1
  | .inhibitory => 2

def LayerType.weight_multiplier : LayerType → ℚ
  | .unconstrained => 1
  | .excitatory => 1
  | .inhibitory => -1

def LayerType.constrain_weights : LayerType → Bool
  | .unconstrained => false
  | .excitatory => true
  | .inhibitory => true

/-- A state vector (numpy 1-d array). -/
abbrev Vec := List ℚ

/-- A dense weight matrix of shape (presynaptic.n_dims, postsynaptic.n_dims). -/
abbrev Mat := List (List ℚ)

/-- Embeds `Connection._Connection__impose_constraint` (connection.py):
`out_of_bounds_idx = (self.weights < 0); self.weights[out_of_bounds_idx] = 0`,
i.e. every negative entry is replaced by 0. -/
def impose_constraint (w : Mat) : Mat :=
  w.map (fun row => row.map (fun x => if x < 0 then 0 else x))

/-- The mutable numeric state of a `Connection` object: the weight matrix,
the pending list `weight_updates` of accumulated delta matrices, and the
`weight_multiplier` captured from the presynaptic layer's `ltype` at
construction time. -/
structure ConnState where
  weights : Mat
  weight_updates : List Mat
  weight_multiplier : ℚ
deriving DecidableEq

/-- Embeds `Connection.__init__` (connection.py): the weight matrix is set
to scaled random values `raw_weights` (`np.random.randn(...) * 0.01`,
passed in here as a parameter since it is sampled randomness), the pending
update list starts empty, the presynaptic `weight_multiplier` is captured,
and `__impose_constraint()` is called unconditionally, for every layer
type. -/
def Connection.init (ltype : LayerType) (raw_weights : Mat) : ConnState :=
  { weights := impose_constraint raw_weights
    weight_updates := []
    weight_multiplier := ltype.weight_multiplier }

/-- Embeds the value of `np.mean(self.weight_updates)` in
`Connection.weight_update` (connection.py): numpy flattens the list of
(m, n) delta matrices into one (k, m, n) array and, with no `axis`
argument, averages over ALL entries, producing a single scalar. -/
def npMeanFlat (ms : List Mat) : ℚ :=
  let total := (ms.map (fun m => (m.map List.sum).sum)).sum
  let count := (ms.map (fun m => (m.map List.length).sum)).sum
  total / (count : ℚ)

/-- `self.weights += c` for a scalar `c`: numpy broadcasts the scalar to
every entry of the matrix. -/
def matAddScalar (w : Mat) (c : ℚ) : Mat :=
  w.map (fun row => row.map (fun x => x + c))

/-- Embeds `Connection.weight_update` (connection.py).  The call first
runs `self.accumulate_weight_update()`; the concrete rule classes
(Oja/Foldiak/CM) append exactly one delta matrix to `self.weight_updates`,
while `ConstantConnection.accumulate_weight_update` appends nothing, so
the appended list is passed here as the parameter `appended`.  Then, if
`len(self.weight_updates) >= self.params.update_batch_size`, the code adds
`np.mean(self.weight_updates)` (the flattened scalar mean, see
`npMeanFlat`) to the weights, clears the pending list, and — when the
presynaptic layer's `ltype.constrain_weights` holds — re-imposes the
non-negativity constraint. -/
def Connection.weight_update (batch : ℕ) (ltype : LayerType)
    (appended : List Mat) (s : ConnState) : ConnState :=
  if batch ≤ (s.weight_updates ++ appended).length then
    { s with
      weights :=
        if ltype.constrain_weights then
          impose_constraint (matAddScalar s.weights (npMeanFlat (s.weight_updates ++ appended)))
        else
          matAddScalar s.weights (npMeanFlat (s.weight_updates ++ appended))
      weight_updates := [] }
  else
    { s with weight_updates := s.weight_updates ++ appended }

/-- `np.diag(np.ones(n))`: the n × n identity matrix. -/
def identityMat (n : ℕ) : Mat :=
  (List.range n).map (fun i => (List.range n).map (fun j => if i = j then 1 else 0))

/-- Embeds `ConstantConnection.__init__` (connection.py): the base
constructor runs first (random weights, empty pending list, captured
multiplier), then — after asserting `input_layer.n_dims ==
output_layer.n_dims` — the weights are overwritten with
`np.diag(np.ones(n))`. -/
def ConstantConnection.init (ltype : LayerType) (n : ℕ) : ConnState :=
  { weights := identityMat n
    weight_updates := []
    weight_multiplier := ltype.weight_multiplier }

/-- A layer-side view of one `Connection` object, as used by the energy
methods: the captured `weight_multiplier`, the weight matrix, and the
current states of the presynaptic and postsynaptic layers the connection
points back to. -/
structure ConnectionRef where
  weight_multiplier : ℚ
  weights : Mat
  pre_state : Vec
  post_state : Vec

/-- Embeds `Connection.feedforward_energy` (connection.py):
`np.sum(self.weight_multiplier * self.weights[:, idx] *
self.presynaptic_layer.state)` — column `idx` of the weights dotted with
the presynaptic state, scaled by the multiplier. -/
def ConnectionRef.feedforward_energy (c : ConnectionRef) (idx : ℕ) : ℚ :=
  (List.zipWith (fun row s => c.weight_multiplier * row.getD idx 0 * s)
    c.weights c.pre_state).sum

/-- Embeds `Connection.energy_shadow` (connection.py):
`np.sum(self.weight_multiplier * self.weights[input_idx, :] *
self.postsynaptic_layer.state)` — row `input_idx` of the weights dotted
with the postsynaptic state, scaled by the multiplier. -/
def ConnectionRef.energy_shadow (c : ConnectionRef) (input_idx : ℕ) : ℚ :=
  (List.zipWith (fun w s => c.weight_multiplier * w * s)
    (c.weights.getD input_idx []) c.post_state).sum

/-- The numeric state of a `Layer` object needed by the per-unit update
methods: the state and bias vectors and the `inputs` / `outputs`
connection lists. -/
structure LayerState where
  state : Vec
  bias : Vec
  inputs : List ConnectionRef
  outputs : List ConnectionRef

/-- Embeds `Layer.input_energy` (layer.py): sums
`feedforward_energy(idx)` over the connections in `self.inputs` and
returns the total. -/
def Layer.input_energy (inputs : List ConnectionRef) (idx : ℕ) : ℚ :=
  (inputs.map (fun c => c.feedforward_energy idx)).sum

/-- The value of the local variable `energy` at the end of
`Layer.output_energy` (layer.py): the sum of `energy_shadow(idx)` over
the connections in `self.outputs`. -/
def Layer.output_energy_local (outputs : List ConnectionRef) (idx : ℕ) : ℚ :=
  (outputs.map (fun c => c.energy_shadow idx)).sum

/-- Embeds the VALUE RETURNED by `Layer.output_energy` (layer.py).  The
method body accumulates the shadow energies into the local variable
`energy` but has no `return` statement, so the Python call always
evaluates to `None`. -/
def Layer.output_energy (_outputs : List ConnectionRef) (_idx : ℕ) : Option ℚ :=
  none

/-- Embeds `PerceptronLayer.activation` (layer.py): `1` if `energy > 0`,
else `-1`. -/
def PerceptronLayer.activation (energy : ℚ) : ℚ :=
  if 0 < energy then 1 else -1

/-- Embeds `PerceptronLayer.update` (layer.py):
`energy = self.bias[idx] + self.input_energy(idx);
self.state[idx] = self.activation(energy)`. -/
def PerceptronLayer.update (l : LayerState) (idx : ℕ) : LayerState :=
  { l with
    state := l.state.set idx
      (PerceptronLayer.activation (l.bias.getD idx 0 + Layer.input_energy l.inputs idx)) }

/-- Embeds the energy-difference computation of
`BoltzmannMachineLayer.update` (layer.py): `e_diff = self.bias[idx];
e_diff += self.input_energy(idx); e_diff += self.output_energy(idx)`.
Since `output_energy` returns `None` (no return statement), the final
`+=` raises `TypeError` at runtime, modelled as `none`; the state is
never written. -/
def BoltzmannMachineLayer.update_energy (l : LayerState) (idx : ℕ) : Option ℚ :=
  match Layer.output_energy l.outputs idx with
  | none => none
  | some e => some (l.bias.getD idx 0 + Layer.input_energy l.inputs idx + e)

/-- `Layer.max_history_length` (layer.py), set to 500 in `__init__`. -/
def max_history_length : ℕ := 500

/-- Embeds `Layer.update_history` (layer.py):
`self.history.insert(0, self.state)`, then if
`len(self.history) > 2 * self.max_history_length` the history is replaced
by `self.history[:self.max_history_length]`. -/
def Layer.update_history (state : Vec) (history : List Vec) : List Vec :=
  if 2 * max_history_length < (state :: history).length then
    (state :: history).take max_history_length
  else
    state :: history

/-- The history of a layer after a sequence of `update_history` calls with
the given successive state snapshots, starting from the empty history set
in `Layer.__init__`. -/
def Layer.history_run (states : List Vec) : List Vec :=
  states.foldl (fun h s => Layer.update_history s h) []

/-- A numpy value that is either a 0-dimensional scalar or a 1-d array. -/
inductive NpVal
  | scalar (x : ℚ)
  | arr (v : Vec)
deriving DecidableEq

/-- Embeds `Layer.firing_rates` (layer.py):
`np.sum(self.history * self.avg_weighting[:len(self.history)], axis=0)`
with `history` a Python list of length-n state vectors and
`avg_weighting` the precomputed kernel (passed as a function `ℕ → ℚ`, so
the slice `avg_weighting[:k]` is its first k samples).  Numpy semantics
of the product, shapes (k, n) * (k,), right-aligned broadcasting:
* empty history: product has shape (0,), and the sum along axis 0 is the
  0-d SCALAR 0.0;
* k = 1: the single weight is broadcast across the row, giving the vector
  `history[0] * avg_weighting[0]`;
* n = k: entry (i, j) is `history[i][j] * avg_weighting[j]`, summed over i;
* n = 1: the column is broadcast, entry (i, j) is
  `history[i][0] * avg_weighting[j]`, summed over i (a length-k vector);
* otherwise the shapes cannot broadcast and numpy raises (`none`). -/
def Layer.firing_rates (history : List Vec) (avg_weighting : ℕ → ℚ) : Option NpVal :=
  match history with
  | [] => some (NpVal.scalar 0)
  | [row] => some (NpVal.arr (row.map (fun x => x * avg_weighting 0)))
  | r :: rs =>
    let k := rs.length + 1
    let n := r.length
    if n = k then
      some (NpVal.arr ((List.range n).map
        (fun j => avg_weighting j * ((r :: rs).map (fun row => row.getD j 0)).sum)))
    else if n = 1 then
      some (NpVal.arr ((List.range k).map
        (fun j => avg_weighting j * ((r :: rs).map (fun row => row.getD 0 0)).sum)))
    else none

/-- Embeds `NetworkParams.__init__` (aux.py) — the fields the claims
touch.  Defaults: `baseline_firing_rate=0.02`, `bias_learning_rate=0.1`,
baseline weight learning rate `0.1` (named `baseline_lrate` in
brio/blocks/aux.py and read as `params.weight_learning_rate` by
`Connection.unpack_network_params`), `presentations=50`. -/
structure NetworkParams where
  presentations : ℕ
  baseline_firing_rate : ℚ
  bias_learning_rate : ℚ
  weight_learning_rate : ℚ

/-- `self.stimuli_per_epoch = 100`, hard-coded in `NetworkParams.__init__`. -/
def NetworkParams.stimuli_per_epoch (_ : NetworkParams) : ℕ := 100

/-- `self.update_batch_size = presentations * self.stimuli_per_epoch`. -/
def NetworkParams.update_batch_size (p : NetworkParams) : ℕ :=
  p.presentations * p.stimuli_per_epoch

/-- `NetworkParams()` with all defaults. -/
def defaultParams : NetworkParams :=
  { presentations := 50
    baseline_firing_rate := 1 / 50
    bias_learning_rate := 1 / 10
    weight_learning_rate := 1 / 10 }

/-- Embeds `Connection.unpack_network_params` (connection.py):
`self.learning_rate = self.learning_rate or network.params.weight_learning_rate`.
The learning rate held before the call is an `Option ℚ` (`None` when not
given at construction).  Python `or` keeps the left operand only when it
is truthy: both `None` and `0.0` are falsy, so both are replaced by the
network's baseline weight learning rate. -/
def Connection.unpack_network_params (learning_rate : Option ℚ) (p : NetworkParams) : ℚ :=
  match learning_rate with
  | none => p.weight_learning_rate
  | some x => if x = 0 then p.weight_learning_rate else x

/-- Fuel-driven helper for `roll_itr`: chunks the list into groups of
`sz`, taking the fuel as an upper bound on the number of chunks. -/
def rollAux : ℕ → ℕ → List Vec → List (List Vec)
  | _, _, [] => []
  | 0, _, _ :: _ => []
  | Nat.succ f, sz, x :: xs => ((x :: xs).take sz) :: rollAux f sz ((x :: xs).drop sz)

/-- Modelled from the spec: `roll_itr` lives in brio/misc/utils.py, which
is not part of the sources; per the spec, `train` "batches them into
groups of `stimuli_per_epoch` (100) via a rolling window".  Chunks the
stimulus sequence into consecutive groups of `sz` (`sz` is always the
positive `stimuli_per_epoch` at the call site; the list length bounds the
number of chunks). -/
def roll_itr (sz : ℕ) (stimuli : List Vec) : List (List Vec) :=
  rollAux stimuli.length sz stimuli

/-- Embeds the `t_counter` evolution of `Network.train` (network.py):
`self.t_counter = 0` at construction, and for each rolled batch the loop
body runs `update_network`, then
`self.t_counter += self.params.stimuli_per_epoch`, then
`training_iteration` (neither of which touches `t_counter`). -/
def Network.train_t (p : NetworkParams) (batches : List (List Vec)) (t0 : ℕ) : ℕ :=
  batches.foldl (fun t _ => t + p.stimuli_per_epoch) t0

/-- Entrywise sum of two equal-shape matrices. -/
def matAdd (a b : Mat) : Mat :=
  List.zipWith (List.zipWith (fun x y => x + y)) a b

/-- Entrywise mean of a list of equal-shape matrices
(`np.mean(ms, axis=0)`), for stating what claim C1 describes. -/
def matMeanEntrywise : List Mat → Mat
  | [] => []
  | m :: rest =>
    (rest.foldl matAdd m).map
      (fun row => row.map (fun x => x / ((rest.length + 1 : ℕ) : ℚ)))

/-- Follows claim C1's words, NOT the source: a variant of
`Connection.weight_update` that adds the ENTRYWISE mean of the pending
delta matrices (numpy `np.mean(..., axis=0)`) to the weight matrix, for
comparison with the source's flattened scalar mean. -/
def Connection.weight_update_entrywise (batch : ℕ) (ltype : LayerType)
    (appended : List Mat) (s : ConnState) : ConnState :=
  if batch ≤ (s.weight_updates ++ appended).length then
    { s with
      weights :=
        if ltype.constrain_weights then
          impose_constraint (matAdd s.weights (matMeanEntrywise (s.weight_updates ++ appended)))
        else
          matAdd s.weights (matMeanEntrywise (s.weight_updates ++ appended))
      weight_updates := [] }
  else
    { s with weight_updates := s.weight_updates ++ appended }

/-! ## Theorems -/

/-- Every entry of a clamped matrix is non-negative. -/
theorem impose_constraint_nonneg (w : Mat) :
    ∀ row ∈ impose_constraint w, ∀ x ∈ row, 0 ≤ x := by
  intro row hrow x hx
  simp only [impose_constraint, List.mem_map] at hrow
  obtain ⟨r, _, rfl⟩ := hrow
  simp only [List.mem_map] at hx
  obtain ⟨y, _, rfl⟩ := hx
  by_cases hy : y < 0
  · simp [hy]
  · simp [hy]
    exact le_of_not_lt hy

/-- Claim C1: the claim says `weight_update()` adds the elementwise mean
of the pending delta matrices when the buffer reaches the batch size.
The source instead adds `np.mean(self.weight_updates)` — the scalar mean
of ALL entries of all pending deltas, broadcast uniformly over the weight
matrix.  At pending buffer `[[[0, 2]]]` (one 1×2 delta), batch size 1 and
weights `[[0, 0]]`, the code produces `[[1, 1]]` while the elementwise
mean would produce `[[0, 2]]`. -/
theorem C1_weight_update_scalar_mean :
    (Connection.weight_update 1 .unconstrained [[[0, 2]]]
        ⟨[[0, 0]], [], 1⟩).weights = [[1, 1]]
  ∧ (Connection.weight_update_entrywise 1 .unconstrained [[[0, 2]]]
        ⟨[[0, 0]], [], 1⟩).weights = [[0, 2]]
  ∧ ([[1, 1]] : Mat) ≠ [[0, 2]] := by
  refine ⟨?_, ?_, by norm_num⟩
  · norm_num [Connection.weight_update, npMeanFlat, matAddScalar, LayerType.constrain_weights]
  · norm_num [Connection.weight_update_entrywise, matMeanEntrywise, matAdd,
      LayerType.constrain_weights]

/-- Claim C2: the claim says `BoltzmannMachineLayer.update(idx)` uses an
energy difference of bias + input energy + output shadow energy, with
`output_energy(idx)` returning the summed `energy_shadow` contributions.
In the source `Layer.output_energy` computes that sum into a local
variable but has no return statement, so the call returns `None` and the
`e_diff += self.output_energy(idx)` line raises `TypeError`: at a one-unit
layer with a single outgoing connection (shadow sum 2), the returned
value is `none` and the update's energy computation fails. -/
theorem C2_output_energy_missing_return :
    Layer.output_energy [⟨1, [[2]], [1], [1]⟩] 0 = none
  ∧ Layer.output_energy_local [⟨1, [[2]], [1], [1]⟩] 0 = 2
  ∧ BoltzmannMachineLayer.update_energy ⟨[1], [3], [], [⟨1, [[2]], [1], [1]⟩]⟩ 0 = none := by
  refine ⟨rfl, ?_, rfl⟩
  norm_num [Layer.output_energy_local, ConnectionRef.energy_shadow]

/-- Claim C3 counterexample: a learning rate of `0` given at construction
is NOT left unchanged — Python's `or` treats `0.0` as falsy, so
`unpack_network_params` replaces it with the network's baseline weight
learning rate (`0.1` by default), which is nonzero. -/
theorem C3_zero_lr_counterexample :
    Connection.unpack_network_params (some 0) defaultParams
        = defaultParams.weight_learning_rate
  ∧ Connection.unpack_network_params (some 0) defaultParams ≠ 0 := by
  refine ⟨by simp [Connection.unpack_network_params], ?_⟩
  norm_num [Connection.unpack_network_params, defaultParams]

/-- Claim C3 (amended): after set-up, a connection constructed without an
explicit learning rate gets the network parameters' baseline weight
learning rate; a NONZERO learning rate given at construction is left
unchanged; a zero learning rate is treated as unset (Python `or`
falsiness) and is likewise replaced by the baseline. -/
theorem C3_learning_rate_defaulting (p : NetworkParams) (x : ℚ) (hx : x ≠ 0) :
    Connection.unpack_network_params none p = p.weight_learning_rate
  ∧ Connection.unpack_network_params (some x) p = x
  ∧ Connection.unpack_network_params (some 0) p = p.weight_learning_rate := by
  refine ⟨rfl, ?_, by simp [Connection.unpack_network_params]⟩
  simp [Connection.unpack_network_params, hx]

/-- Claim C3 witness: the amended theorem at learning rate 1/2 and the
default parameters. -/
theorem C3_learning_rate_defaulting_witness :
    Connection.unpack_network_params (some (1 / 2)) defaultParams = 1 / 2 :=
  (C3_learning_rate_defaulting defaultParams (1 / 2) (by norm_num)).2.1

/-- Claim C4 counterexample: for a layer of dimension 2 with empty
history, `firing_rates()` evaluates `np.sum([] * kernel[:0], axis=0)`,
which is the 0-dimensional numpy SCALAR `0.0`, not the length-2 zero
vector the claim describes. -/
theorem C4_empty_history_counterexample :
    Layer.firing_rates [] (fun _ => 1) = some (NpVal.scalar 0)
  ∧ Layer.firing_rates [] (fun _ => 1) ≠ some (NpVal.arr [0, 0]) := by
  exact ⟨rfl, by simp [Layer.firing_rates]⟩

/-- Claim C4 (amended): for every layer whose history buffer is empty,
`firing_rates()` returns the numpy scalar `0.0` (a 0-d value, which only
behaves like a zero vector through broadcasting in later arithmetic),
independent of the decay kernel. -/
theorem C4_firing_rates_empty (avg_weighting : ℕ → ℚ) :
    Layer.firing_rates [] avg_weighting = some (NpVal.scalar 0) := rfl

/-- One `update_history` call keeps the history length within the
2 × `max_history_length` cap. -/
theorem update_history_length_le (s : Vec) (h : List Vec) :
    (Layer.update_history s h).length ≤ 2 * max_history_length := by
  unfold Layer.update_history
  by_cases hc : 2 * max_history_length < (s :: h).length
  · rw [if_pos hc]
    simp only [List.length_take]
    omega
  · rw [if_neg hc]
    simp only [List.length_cons] at hc ⊢
    omega

/-- The length cap is preserved along any sequence of
`update_history` calls. -/
theorem history_run_length_le (states : List Vec) :
    ∀ h : List Vec, h.length ≤ 2 * max_history_length →
      (states.foldl (fun acc s => Layer.update_history s acc) h).length
        ≤ 2 * max_history_length := by
  induction states with
  | nil => intro h hh; simpa using hh
  | cons s ss ih =>
    intro h _
    exact ih _ (update_history_length_le s h)

/-- Claim C5: starting from the empty history, the history length after
each `update_history` call never exceeds 2 × `max_history_length` = 1000;
a call on a full (length-1000) history leaves exactly the
`max_history_length` = 500 most recent entries; a call on a shorter
history just prepends the state; the newest snapshot is at index 0. -/
theorem C5_history_bound (states : List Vec) (h : List Vec) (s : Vec) :
    (Layer.history_run states).length ≤ 2 * max_history_length
  ∧ (h.length = 2 * max_history_length →
      Layer.update_history s h = (s :: h).take max_history_length
        ∧ (Layer.update_history s h).length = max_history_length)
  ∧ (h.length < 2 * max_history_length → Layer.update_history s h = s :: h)
  ∧ (Layer.update_history s h).head? = some s := by
  refine ⟨history_run_length_le states [] (by simp), ?_, ?_, ?_⟩
  · intro hlen
    have hc : 2 * max_history_length < (s :: h).length := by
      simp only [List.length_cons]; omega
    constructor
    · unfold Layer.update_history
      rw [if_pos hc]
    · unfold Layer.update_history
      rw [if_pos hc]
      simp only [List.length_take, List.length_cons]
      omega
  · intro hlen
    have hc : ¬ 2 * max_history_length < (s :: h).length := by
      simp only [List.length_cons]; omega
    unfold Layer.update_history
    rw [if_neg hc]
  · unfold Layer.update_history
    by_cases hc : 2 * max_history_length < (s :: h).length
    · rw [if_pos hc]
      rw [show max_history_length = 499 + 1 from rfl, List.take_succ_cons]
      rfl
    · rw [if_neg hc]
      rfl

/-- Claim C5 witness: a call on a full length-1000 history truncates to
the 500 newest entries, and a call on the empty history just prepends. -/
theorem C5_history_bound_witness :
    Layer.update_history [1] (List.replicate (2 * max_history_length) [0])
        = (([1] : Vec) :: List.replicate (2 * max_history_length) [0]).take max_history_length
  ∧ Layer.update_history [1] [] = [[1]] := by
  constructor
  · exact ((C5_history_bound [] _ [1]).2.1 (by simp)).1
  · exact (C5_history_bound [] [] [1]).2.2.1 (by norm_num [max_history_length])

/-- Claim C6: whenever the presynaptic layer's kind constrains weights
and a `weight_update()` call triggers the batched apply-and-clamp (the
pending buffer, after `accumulate_weight_update` appends its delta, has
reached the batch size), every entry of the resulting weight matrix is
non-negative. -/
theorem C6_constrained_nonneg (batch : ℕ) (ltype : LayerType) (delta : Mat)
    (s : ConnState) (hc : ltype.constrain_weights = true)
    (ht : batch ≤ (s.weight_updates ++ [delta]).length) :
    ∀ row ∈ (Connection.weight_update batch ltype [delta] s).weights,
      ∀ x ∈ row, 0 ≤ x := by
  unfold Connection.weight_update
  rw [if_pos ht, hc]
  simp only [if_true]
  exact impose_constraint_nonneg _

/-- Claim C6 witness: an excitatory presynaptic kind constrains weights,
and at batch size 1 with pending delta `[[-1]]` and weights `[[0]]` the
triggered update clamps the entry back to 0 ≥ 0. -/
theorem C6_constrained_nonneg_witness :
    LayerType.constrain_weights .excitatory = true
  ∧ 1 ≤ (((⟨[[0]], [], 1⟩ : ConnState)).weight_updates ++ [[[-1]]]).length
  ∧ (0 : ℚ) ≤ 0 :=
  ⟨rfl, by simp,
    C6_constrained_nonneg 1 .excitatory [[-1]] ⟨[[0]], [], 1⟩ rfl (by simp) [0]
      (by norm_num [Connection.weight_update, npMeanFlat, matAddScalar, impose_constraint,
        LayerType.constrain_weights])
      0 (by norm_num)⟩

/-- Claim C7: a `ConstantConnection` between same-dimension layers has the
identity weight matrix immediately after construction, and — since its
`accumulate_weight_update` appends nothing and the pending buffer
therefore never reaches a positive `update_batch_size` — still the
identity after any finite number of `weight_update()` calls. -/
theorem C7_constant_identity (ltype : LayerType) (n batch k : ℕ) (hb : 0 < batch) :
    (ConstantConnection.init ltype n).weights = identityMat n
  ∧ ((fun s => Connection.weight_update batch ltype [] s)^[k]
        (ConstantConnection.init ltype n)).weights = identityMat n := by
  refine ⟨rfl, ?_⟩
  have hfix : Connection.weight_update batch ltype [] (ConstantConnection.init ltype n)
      = ConstantConnection.init ltype n := by
    unfold Connection.weight_update ConstantConnection.init
    rw [if_neg]
    simp only [List.append_nil]
    intro hle
    simp only [List.append_nil, List.length_nil] at hle
    omega
  rw [Function.iterate_fixed hfix]
  rfl

/-- Claim C7 witness: with the default batch size 5000 and three
`weight_update()` calls on a 2 × 2 constant connection, the weights are
still the identity. -/
theorem C7_constant_identity_witness :
    0 < 5000
  ∧ ((fun s => Connection.weight_update 5000 .unconstrained [] s)^[3]
        (ConstantConnection.init .unconstrained 2)).weights = identityMat 2 :=
  ⟨by norm_num, (C7_constant_identity .unconstrained 2 5000 3 (by norm_num)).2⟩

/-- `t_counter` after a `train` call: the starting value plus
`stimuli_per_epoch` for each rolled batch. -/
theorem train_t_formula (p : NetworkParams) (batches : List (List Vec)) (t0 : ℕ) :
    Network.train_t p batches t0 = t0 + batches.length * p.stimuli_per_epoch := by
  induction batches generalizing t0 with
  | nil => simp [Network.train_t]
  | cons b bs ih =>
    simp only [Network.train_t, List.foldl_cons, List.length_cons] at ih ⊢
    rw [ih]
    ring

/-- Claim C8: each rolled batch consumed by `Network.train` advances
`t_counter` by exactly `stimuli_per_epoch` (so after the whole call it has
grown by `number of batches × stimuli_per_epoch`), and one `train` call
on a stream of exactly 100 individual stimuli — rolled into a single
batch — leaves `t_counter` = 100 starting from the constructor's 0. -/
theorem C8_train_counter (p : NetworkParams) (batches : List (List Vec))
    (t0 : ℕ) (stimuli : List Vec) :
    Network.train_t p batches t0 = t0 + batches.length * p.stimuli_per_epoch
  ∧ (stimuli.length = 100 →
      Network.train_t p (roll_itr p.stimuli_per_epoch stimuli) 0 = 100) := by
  refine ⟨train_t_formula p batches t0, ?_⟩
  intro hlen
  cases stimuli with
  | nil => simp at hlen
  | cons a tl =>
    have hroll : roll_itr p.stimuli_per_epoch (a :: tl) = [(a :: tl).take 100] := by
      show rollAux (a :: tl).length 100 (a :: tl) = _
      rw [hlen]
      have e1 : rollAux 100 100 (a :: tl)
          = ((a :: tl).take 100) :: rollAux 99 100 ((a :: tl).drop 100) := rfl
      have e2 : (a :: tl).drop 100 = [] := by
        rw [← hlen]
        exact List.drop_length _
      rw [e1, e2]
      rfl
    rw [hroll, train_t_formula]
    rfl

/-- Claim C8 witness: a stream of 100 all-ones stimuli has length 100 and
one `train` call on it leaves `t_counter` = 100. -/
theorem C8_train_counter_witness :
    (List.replicate 100 ([1] : Vec)).length = 100
  ∧ Network.train_t defaultParams
      (roll_itr defaultParams.stimuli_per_epoch (List.replicate 100 ([1] : Vec))) 0 = 100 :=
  ⟨by simp,
    (C8_train_counter defaultParams [] 0 (List.replicate 100 [1])).2 (by simp)⟩

/-- Claim C9: the deterministic perceptron activation returns 1 on
positive energy and -1 on non-positive energy, and
`PerceptronLayer.update(idx)` writes `activation(bias[idx] +
input_energy(idx))` into `state[idx]` using the feed-forward input energy
only — the result does not depend on the outgoing-connection list, so the
shadow (output) energy is ignored. -/
theorem C9_perceptron (x : ℚ) (l : LayerState) (idx : ℕ) (outs : List ConnectionRef) :
    (0 < x → PerceptronLayer.activation x = 1)
  ∧ (x ≤ 0 → PerceptronLayer.activation x = -1)
  ∧ (PerceptronLayer.update l idx).state
      = l.state.set idx
          (PerceptronLayer.activation (l.bias.getD idx 0 + Layer.input_energy l.inputs idx))
  ∧ (PerceptronLayer.update { l with outputs := outs } idx).state
      = (PerceptronLayer.update l idx).state := by
  refine ⟨?_, ?_, rfl, rfl⟩
  · intro hx
    simp [PerceptronLayer.activation, hx]
  · intro hx
    simp [PerceptronLayer.activation, not_lt.mpr hx]

/-- Claim C9 witness: the activation at the concrete energies 1 and 0. -/
theorem C9_perceptron_witness :
    PerceptronLayer.activation 1 = 1 ∧ PerceptronLayer.activation 0 = -1 :=
  ⟨(C9_perceptron 1 ⟨[], [], [], []⟩ 0 []).1 (by norm_num),
   (C9_perceptron 0 ⟨[], [], [], []⟩ 0 []).2.1 (by norm_num)⟩

/-- Claim C10: the base `Connection` constructor calls
`__impose_constraint` unconditionally — for every layer kind, including
`unconstrained` — so every entry of the weight matrix is non-negative
immediately after construction, whatever the raw random initial values
were. -/
theorem C10_init_nonneg (ltype : LayerType) (raw : Mat) :
    ∀ row ∈ (Connection.init ltype raw).weights, ∀ x ∈ row, 0 ≤ x := by
  intro row hrow x hx
  exact impose_constraint_nonneg raw row hrow x hx

/-- Claim C10 witness: an unconstrained-kind connection initialised with
raw weights `[[-1, 2]]` has clamped weights containing the row `[0, 2]`,
whose entry 0 is non-negative. -/
theorem C10_init_nonneg_witness :
    ([0, 2] : Vec) ∈ (Connection.init .unconstrained [[-1, 2]]).weights
  ∧ (0 : ℚ) ≤ 0 :=
  ⟨by norm_num [Connection.init, impose_constraint],
    C10_init_nonneg .unconstrained [[-1, 2]] [0, 2]
      (by norm_num [Connection.init, impose_constraint]) 0 (by norm_num)⟩

end Brio
